import Mathlib

/-!
Verification development for the `getamis/graphql-client` repository
(`graphql.go`): a shallow embedding of the stateless GraphQL client
(`Client`, `Request`, `Run`, `runWithJSON` / `runWithPostFields` response
handling, `Var` / `Vars`) and of the subscription protocol engine
(`SubscriptionClient`, the connection handshake, `subWork` dispatch loop,
`Subscribe`, `Unsubscribe`, `Close`), together with theorems settling the
frozen claims about this code.

Conventions of the embedding:
* Go maps and the `sync.Map` registry are modelled as association lists with
  exact string-key equality (`assocStore` overwrites an existing key, exactly
  like a Go map assignment; `assocDelete` removes it).
* A Go channel (`Subscription`) is modelled as a `ChanState`: the ordered list
  of delivered items plus a closed flag.  Sending on a closed channel and
  closing a closed channel are runtime panics, modelled as `none` results.
* A nil-interface type assertion (`ch.(Subscription)` on a missing registry
  entry) and a nil-pointer dereference (`*msg.Id`) are runtime panics,
  modelled as `none` results of the dispatch step.
* The websocket connection is a `WsConn`: an open flag plus the list of frames
  written so far.  `WriteJSON` on a closed connection fails with the usual
  "use of closed network connection" error.
* `log.Fatalf` calls `os.Exit(1)`: the process terminates and deferred
  functions (in particular the deferred registry sweep closing every
  subscriber channel) do not run.  This is modelled by
  `ExitBehavior.processFatal`.
-/

/-- Go `File` struct (`graphql.go`): a file attachment of a request.  The
`io.Reader` field `R` is opaque to all control flow and is omitted. -/
structure File where
  field : String
  partName : String
  name : String
  contentType : String
deriving Repr, DecidableEq

/-- Go `Request` struct: query string, lazily created variables map, file
attachments and extra headers.  The variables map value type `interface{}` is
the type parameter `α`; `vars = none` models the nil map of a fresh request. -/
structure Request (α : Type) where
  q : String
  vars : Option (List (String × α))
  files : List File
  header : List (String × List String)

/-- Go `Client` struct fields that drive control flow (`endpoint`,
`useMultipartForm`, `closeReq`).  The `http.Client`, logger and header hook
carry no decidable control flow of the claims and are omitted. -/
structure Client where
  endpoint : String
  useMultipartForm : Bool
  closeReq : Bool
deriving Repr, DecidableEq

/-- Go `NewRequest`: fresh request with nil variables map and no files. -/
def NewRequest {α : Type} (q : String) : Request α :=
  { q := q, vars := none, files := [], header := [] }

/-- Association-list update with exact key equality: the shallow embedding of
a Go map assignment `m[k] = v` (overwrite an existing binding, else add). -/
def assocStore {β : Type} : List (String × β) → String → β → List (String × β)
  | [], k, v => [(k, v)]
  | p :: rest, k, v => if p.1 = k then (k, v) :: rest else p :: assocStore rest k v

/-- Association-list lookup: the embedding of Go map/`sync.Map` lookup. -/
def assocLookup {β : Type} : List (String × β) → String → Option β
  | [], _ => none
  | p :: rest, k => if p.1 = k then some p.2 else assocLookup rest k

/-- Association-list deletion: the embedding of `sync.Map.Delete`. -/
def assocDelete {β : Type} : List (String × β) → String → List (String × β)
  | [], _ => []
  | p :: rest, k => if p.1 = k then assocDelete rest k else p :: assocDelete rest k

/-- Go `Request.Var` (graphql.go lines 342-347): lazily allocate the variables
map, then bind `key` to `value`. -/
def Request.Var {α : Type} (req : Request α) (key : String) (value : α) : Request α :=
  match req.vars with
  | none => { req with vars := some (assocStore [] key value) }
  | some m => { req with vars := some (assocStore m key value) }

/-- Go `Request.Vars` (graphql.go lines 350-352): returns the variables map
(possibly still nil). -/
def Request.Vars {α : Type} (req : Request α) : Option (List (String × α)) :=
  req.vars

/-- Go `Request.Query`. -/
def Request.Query {α : Type} (req : Request α) : String :=
  req.q

/-- Go `Request.Files`. -/
def Request.Files {α : Type} (req : Request α) : List File :=
  req.files

/-- Go `graphErr` struct: one application-level GraphQL error. -/
structure graphErr where
  message : String
deriving Repr, DecidableEq

/-- Go `graphErr.Error()`: the rendered error string. -/
def graphErr.errorString (e : graphErr) : String :=
  "graphql: " ++ e.message

/-- Go `graphResponse` struct: decoded response envelope.  The `Data` field is
decoded in place into the caller's object; its decoded bytes are opaque here. -/
structure graphResponse where
  data : Option String
  errors : List graphErr
deriving Repr, DecidableEq

/-- Tail of Go `runWithJSON` (graphql.go lines 156-160): after a successful
decode of the response envelope, return the first error of `gr.Errors` if the
list is non-empty, else succeed. -/
def runWithJSONFinish (gr : graphResponse) : Except graphErr Unit :=
  match gr.errors with
  | [] => Except.ok ()
  | e :: _ => Except.error e

/-- Tail of Go `runWithPostFields` (graphql.go lines 267-271): identical
first-error handling on the multipart path. -/
def runWithPostFieldsFinish (gr : graphResponse) : Except graphErr Unit :=
  match gr.errors with
  | [] => Except.ok ()
  | e :: _ => Except.error e

/-- Outcome of the dispatch in Go `Client.Run` (graphql.go lines 94-107):
either the context was already done, or the files-without-multipart guard
fired, or control reached one of the two HTTP senders. -/
inductive RunDispatch where
  | ctxError
  | filesWithoutMultipart (msg : String)
  | postFields
  | json
deriving Repr, DecidableEq

/-- Whether a `Run` dispatch outcome goes on to build and send an HTTP
request: only the `runWithPostFields` and `runWithJSON` branches do. -/
def RunDispatch.sendsHTTPRequest : RunDispatch → Bool
  | RunDispatch.postFields => true
  | RunDispatch.json => true
  | _ => false

/-- Go `Client.Run` (graphql.go lines 94-107): check the context, then refuse
file attachments unless the client was built with `UseMultipartForm`, then
dispatch to the multipart or JSON sender.  `ctxDone` models `ctx.Done()`
having fired. -/
def Client.Run {α : Type} (c : Client) (ctxDone : Bool) (req : Request α) : RunDispatch :=
  if ctxDone then RunDispatch.ctxError
  else if req.files.length > 0 ∧ c.useMultipartForm = false then
    RunDispatch.filesWithoutMultipart "cannot send files with PostFields option"
  else if c.useMultipartForm then RunDispatch.postFields
  else RunDispatch.json

/-- Go `subscriptionMessageType`: the wire `type` field of a frame. -/
abbrev subscriptionMessageType := String

/-- Go constant `gql_connection_init` (graphql.go line 398). -/
def gql_connection_init : subscriptionMessageType := "connection_init"

/-- Go constant `gql_start` (graphql.go line 399). -/
def gql_start : subscriptionMessageType := "start"

/-- Go constant `gql_stop` (graphql.go line 400). -/
def gql_stop : subscriptionMessageType := "stop"

/-- Go constant `gql_connection_ack` (graphql.go line 401). -/
def gql_connection_ack : subscriptionMessageType := "connection_ack"

/-- Go constant `gql_connection_terminate` (graphql.go line 402). -/
def gql_connection_terminate : subscriptionMessageType := "connection_terminate"

/-- Go constant `gql_connection_error` (graphql.go line 403). -/
def gql_connection_error : subscriptionMessageType := "connection_error"

/-- Go constant `gql_data` (graphql.go line 404). -/
def gql_data : subscriptionMessageType := "data"

/-- Go constant `gql_error` (graphql.go line 405). -/
def gql_error : subscriptionMessageType := "error"

/-- Go constant `gql_complete` (graphql.go line 406).  Its value in the source
is the string `"GQL_COMPLETE"`, not the wire-protocol type `"complete"`. -/
def gql_complete : subscriptionMessageType := "GQL_COMPLETE"

/-- Go constant `gql_connection_keep_alive` (graphql.go line 407). -/
def gql_connection_keep_alive : subscriptionMessageType := "ka"

/-- Go `subscriptionMessage` struct: one wire frame.  `payload` and `id` are
`*json.RawMessage` / `*string` pointers, hence `Option`; the raw JSON payload
bytes are kept as an opaque string. -/
structure subscriptionMessage where
  payload : Option String
  id : Option String
  type : subscriptionMessageType
deriving Repr, DecidableEq

/-- Go `SubscriptionPayload` struct: one item delivered on a subscription
channel, tagged data or error. -/
structure SubscriptionPayload where
  data : Option String
  error : Option String
deriving Repr, DecidableEq

/-- State of one Go `Subscription` channel: the items delivered so far in
order, and whether the channel has been closed. -/
structure ChanState where
  items : List SubscriptionPayload
  closed : Bool
deriving Repr, DecidableEq

/-- State of the `websocket.Conn`: whether it is still open, and the frames
written to it so far (in order). -/
structure WsConn where
  isOpen : Bool
  sent : List subscriptionMessage
deriving Repr, DecidableEq

/-- `websocket.Conn.WriteJSON`: append the frame if the connection is open,
else fail with the usual closed-connection error. -/
def wsWriteJSON (ws : WsConn) (m : subscriptionMessage) : Except String WsConn :=
  if ws.isOpen then Except.ok { ws with sent := ws.sent ++ [m] }
  else Except.error "use of closed network connection"

/-- `websocket.Conn.Close`: the connection becomes closed. -/
def wsClose (ws : WsConn) : WsConn :=
  { ws with isOpen := false }

/-- Go `SubscriptionClient` struct: the websocket (`subWebsocket`, a pointer,
hence `Option`), the registry `subs : sync.Map` mapping subscriber-id strings
to channels, the channels themselves (a heap indexed by `Nat` references,
since Go channels are reference values), and the id counter `subIdGen`.
The Go field `subIdGen int` is a 64-bit two's-complement machine integer on
the platforms this library targets; it is modelled by its bit pattern, a
`Nat` kept below `2 ^ 64`, and the increment `c.subIdGen++` wraps: it is
`+ 1` modulo `2 ^ 64` on the pattern. -/
structure SubscriptionClient where
  subWebsocket : Option WsConn
  subs : List (String × Nat)
  chans : List ChanState
  subIdGen : Nat
deriving Repr, DecidableEq

/-- Send one item on channel `r`: Go `ch <- p`.  `none` models a runtime
panic / stuck send (bad reference or channel already closed). -/
def chanSend (chans : List ChanState) (r : Nat) (p : SubscriptionPayload) :
    Option (List ChanState) :=
  match chans[r]? with
  | none => none
  | some c => if c.closed then none else some (chans.set r { c with items := c.items ++ [p] })

/-- Close channel `r`: Go `close(ch)`.  `none` models the runtime panic of
closing a closed channel or a bad reference. -/
def chanClose (chans : List ChanState) (r : Nat) : Option (List ChanState) :=
  match chans[r]? with
  | none => none
  | some c => if c.closed then none else some (chans.set r { c with closed := true })

/-- One iteration of the `switch msg.Type` in Go `subWork` (graphql.go lines
512-528), acting on the registry and the channel heap.  A `none` result is a
runtime panic that kills the dispatch loop: dereferencing a nil `msg.Id`, the
nil-interface type assertion `ch.(Subscription)` when `subs.Load` found no
entry, or a send/close on a closed channel.  Frame types other than the four
cases of the switch are ignored. -/
def subWorkHandleCore (subs : List (String × Nat)) (chans : List ChanState)
    (msg : subscriptionMessage) : Option (List (String × Nat) × List ChanState) :=
  if msg.type = gql_error then
    match msg.id with
    | none => none
    | some id =>
      match assocLookup subs id with
      | none => none
      | some r =>
        match chanSend chans r { data := none, error := msg.payload } with
        | none => none
        | some chans2 => some (subs, chans2)
  else if msg.type = gql_data then
    match msg.id with
    | none => none
    | some id =>
      match assocLookup subs id with
      | none => none
      | some r =>
        match chanSend chans r { data := msg.payload, error := none } with
        | none => none
        | some chans2 => some (subs, chans2)
  else if msg.type = gql_complete then
    match msg.id with
    | none => none
    | some id =>
      match assocLookup subs id with
      | none => none
      | some r =>
        match chanClose chans r with
        | none => none
        | some chans2 => some (assocDelete subs id, chans2)
  else
    some (subs, chans)

/-- One dispatch iteration of Go `subWork` on the whole client state.
`none` is a runtime panic (see `subWorkHandleCore`). -/
def subWorkHandle (st : SubscriptionClient) (msg : subscriptionMessage) :
    Option SubscriptionClient :=
  (subWorkHandleCore st.subs st.chans msg).map
    (fun p => { st with subs := p.1, chans := p.2 })

/-- A read error of `websocket.Conn.ReadJSON` as `subWork` sees it.  Go
compares errors by identity (`err == io.EOF`), so the two sentinel errors are
their own constructors; `other` is any distinct error value with its message
string. -/
inductive ReadError where
  | eof
  | errUnexpectedEOF
  | other (msg : String)
deriving Repr, DecidableEq

/-- Go `err.Error()` for the modelled read errors. -/
def ReadError.message : ReadError → String
  | ReadError.eof => "EOF"
  | ReadError.errUnexpectedEOF => "unexpected EOF"
  | ReadError.other m => m

/-- Go `strings.HasSuffix` on the underlying characters. -/
def hasSuffix (s suffix : String) : Bool :=
  suffix.data.isSuffixOf s.data

/-- How the dispatch loop leaves on a read error. `returnCloseAll`: the loop
returns, so the deferred `subs.Range` runs and closes every registered
subscriber channel.  `processFatal`: `log.Fatalf` calls `os.Exit(1)` — the
whole process terminates, deferred functions do not run, no subscriber
channel is closed and nothing is reported back to the engine. -/
inductive ExitBehavior where
  | returnCloseAll
  | processFatal
deriving Repr, DecidableEq

/-- Whether an exit behavior closes all registered subscriber channels. -/
def exitClosesAllSinks : ExitBehavior → Bool
  | ExitBehavior.returnCloseAll => true
  | ExitBehavior.processFatal => false

/-- The read-error branch of Go `subWork` (graphql.go lines 499-510): identity
comparison against `io.ErrUnexpectedEOF` and `io.EOF`, then a message-suffix
check against `"unexpected EOF"`, and otherwise `log.Fatalf`. -/
def subWorkOnReadError (e : ReadError) : ExitBehavior :=
  if e = ReadError.errUnexpectedEOF ∨ e = ReadError.eof then ExitBehavior.returnCloseAll
  else if hasSuffix e.message "unexpected EOF" then ExitBehavior.returnCloseAll
  else ExitBehavior.processFatal

/-- Result of Go `Client.SubscriptionClient` (graphql.go lines 416-461), the
connection handshake: the returned error (or success), whether a connection
was dialled, whether `conn.Close()` was called before returning, whether the
dispatch goroutine was started, and whether the function panicked
(dereferencing a nil `msg.Payload` in the `connection_error` branch). -/
structure HandshakeResult where
  result : Except String Unit
  connDialed : Bool
  connClosed : Bool
  loopStarted : Bool
  panicked : Bool
deriving Repr

/-- Go `Client.SubscriptionClient` (graphql.go lines 416-461): dial, write the
`connection_init` frame, read one reply.  `dial`/`writeRes` are the outcomes
of `DialContext` and `WriteJSON`; `reply` is the outcome of `ReadJSON`.
Faithful to the source: a failed write or read returns the error WITHOUT
closing the connection; only a non-`connection_ack` reply closes it. -/
def SubscriptionClientHandshake (dial : Except String Unit) (writeRes : Except String Unit)
    (reply : Except String subscriptionMessage) : HandshakeResult :=
  match dial with
  | Except.error e =>
    { result := Except.error e, connDialed := false, connClosed := false,
      loopStarted := false, panicked := false }
  | Except.ok _ =>
    match writeRes with
    | Except.error e =>
      { result := Except.error e, connDialed := true, connClosed := false,
        loopStarted := false, panicked := false }
    | Except.ok _ =>
      match reply with
      | Except.error e =>
        { result := Except.error e, connDialed := true, connClosed := false,
          loopStarted := false, panicked := false }
      | Except.ok msg =>
        if msg.type = gql_connection_ack then
          { result := Except.ok (), connDialed := true, connClosed := false,
            loopStarted := true, panicked := false }
        else if msg.type = gql_connection_error then
          match msg.payload with
          | some p =>
            { result := Except.error p, connDialed := true, connClosed := true,
              loopStarted := false, panicked := false }
          | none =>
            { result := Except.error "panic: nil payload", connDialed := true,
              connClosed := true, loopStarted := false, panicked := true }
        else
          { result := Except.error "server-did-not-acknowledge", connDialed := true,
            connClosed := true, loopStarted := false, panicked := false }

/-- Go `SubscriptionClient.Close` (graphql.go lines 463-478): if the websocket
pointer is nil return success; otherwise write a `connection_terminate` frame
(returning the error if the write fails), wait for the dispatch loop, then
close the websocket.  Faithful to the source: `subWebsocket` is never set to
nil, so the state keeps the (now closed) connection. -/
def SubscriptionClient.Close (st : SubscriptionClient) :
    Except String Unit × SubscriptionClient :=
  match st.subWebsocket with
  | none => (Except.ok (), st)
  | some ws =>
    match wsWriteJSON ws { payload := none, id := none, type := gql_connection_terminate } with
    | Except.error e => (Except.error e, st)
    | Except.ok ws2 => (Except.ok (), { st with subWebsocket := some (wsClose ws2) })

/-- The serialized `start` payload of Go `Subscribe`: the JSON encoding of
the query and variables (opaque to all control flow). -/
def encodeRequestBody (q : String) (vars : List (String × String)) : String :=
  "\x7b\"query\":\"" ++ q ++ "\",\"variables\":\"" ++
    String.intercalate "," (vars.map (fun p => p.1 ++ "=" ++ p.2)) ++ "\"\x7d"

/-- Decimal digits of `n`, most significant first, with explicit fuel so the
definition is structural and computes in the kernel.  Fuel `n + 1` always
suffices (`n / 10 < n` for `n ≥ 10`). -/
def decDigitsAux : Nat → Nat → List Nat
  | 0, _ => []
  | f + 1, n => if n < 10 then [n] else decDigitsAux f (n / 10) ++ [n % 10]

/-- Decimal digits of `n`, most significant first. -/
def decDigits (n : Nat) : List Nat :=
  decDigitsAux (n + 1) n

/-- Go `strconv.Itoa` on the (always non-negative) `subIdGen` counter: the
usual decimal representation. -/
def itoa (n : Nat) : String :=
  String.mk ((decDigits n).map Nat.digitChar)

/-- Go `strconv.Itoa` on a signed value: a nonnegative value renders as its
decimal digits, a negative one as a minus sign followed by the decimal digits
of its magnitude. -/
def itoaInt (i : Int) : String :=
  if i < 0 then String.mk ('-' :: (decDigits i.natAbs).map Nat.digitChar)
  else itoa i.toNat

/-- The signed two's-complement value of the 64-bit pattern `v`: the value of
the Go `int` field whose bits are `v`. -/
def int64OfBits (v : Nat) : Int :=
  if v < 2 ^ 63 then (v : Int) else (v : Int) - 2 ^ 64

/-- Go `strconv.Itoa(c.subIdGen)` where the `int` field `subIdGen` holds the
bit pattern `v`: render the signed value. -/
def goItoa (v : Nat) : String :=
  itoaInt (int64OfBits v)

/-- Go `SubscriptionClient.Subscribe` (graphql.go lines 532-563): encode the
body (string encoding cannot fail), take `id := strconv.Itoa(subIdGen)` and
increment the counter, make a fresh channel, store it in the registry, then
write the `start` frame.  On a write error the call returns the error and —
faithful to the source — does NOT remove the registry entry.  The result is
`none` when `subWebsocket` is nil (a nil-pointer panic in `WriteJSON`);
otherwise `some (res, st2)` with `res` the returned channel reference or
error. -/
def SubscriptionClient.Subscribe (st : SubscriptionClient) (q : String)
    (vars : List (String × String)) : Option (Except String Nat × SubscriptionClient) :=
  match st.subWebsocket with
  | none => none
  | some ws =>
    let id := goItoa st.subIdGen
    let st1 : SubscriptionClient := { st with subIdGen := (st.subIdGen + 1) % 2 ^ 64 }
    let ref := st1.chans.length
    let st2 : SubscriptionClient :=
      { st1 with chans := st1.chans ++ [{ items := [], closed := false }],
                 subs := assocStore st1.subs id ref }
    match wsWriteJSON ws { payload := some (encodeRequestBody q vars),
                           id := some id, type := gql_start } with
    | Except.error e => some (Except.error e, st2)
    | Except.ok ws2 => some (Except.ok ref, { st2 with subWebsocket := some ws2 })

/-- Go `SubscriptionClient.Unsubscribe` (graphql.go lines 565-574): range over
the registry for the entry whose channel is the given one, and write a `stop`
frame with its id (ignoring any write error).  The registry entry is NOT
removed and the channel is NOT closed.  `none` models the nil-pointer panic
when the websocket is nil and a matching entry exists. -/
def SubscriptionClient.Unsubscribe (st : SubscriptionClient) (r : Nat) :
    Option SubscriptionClient :=
  match st.subs.find? (fun p => decide (p.2 = r)) with
  | none => some st
  | some p =>
    match st.subWebsocket with
    | none => none
    | some ws =>
      match wsWriteJSON ws { payload := none, id := some p.1, type := gql_stop } with
      | Except.error _ => some st
      | Except.ok ws2 => some { st with subWebsocket := some ws2 }

/-- One caller-side or inbound event of the engine's lifetime, used to state
trace properties of the identifier counter. -/
inductive EngineOp where
  | subscribe (q : String)
  | inbound (m : subscriptionMessage)
  | unsubscribe (r : Nat)
deriving Repr, DecidableEq

/-- Effect of one `EngineOp` on the client state.  A panicking step (`none`
result) leaves the state unchanged: the dispatch loop dies but the registry,
channels and counter keep their values. -/
def stepOp (st : SubscriptionClient) : EngineOp → SubscriptionClient
  | EngineOp.subscribe q =>
    match SubscriptionClient.Subscribe st q [] with
    | none => st
    | some p => p.2
  | EngineOp.inbound m => (subWorkHandle st m).getD st
  | EngineOp.unsubscribe r => (SubscriptionClient.Unsubscribe st r).getD st

/-- Run a trace of engine operations. -/
def runOps (st : SubscriptionClient) : List EngineOp → SubscriptionClient
  | [] => st
  | op :: ops => runOps (stepOp st op) ops

/-- Number of `subscribe` calls in a trace. -/
def numSubscribes : List EngineOp → Nat
  | [] => 0
  | EngineOp.subscribe _ :: ops => numSubscribes ops + 1
  | _ :: ops => numSubscribes ops

/-- The subscriber identifiers assigned by the `subscribe` calls of a trace:
each call with a live websocket takes `strconv.Itoa` of the current counter
(graphql.go lines 545-546). -/
def assignedIds (st : SubscriptionClient) : List EngineOp → List String
  | [] => []
  | EngineOp.subscribe q :: ops =>
    (match st.subWebsocket with
     | some _ => [goItoa st.subIdGen]
     | none => []) ++ assignedIds (stepOp st (EngineOp.subscribe q)) ops
  | EngineOp.inbound m :: ops => assignedIds (stepOp st (EngineOp.inbound m)) ops
  | EngineOp.unsubscribe r :: ops => assignedIds (stepOp st (EngineOp.unsubscribe r)) ops

/-- Value of a most-significant-first decimal digit list (used only to prove
`itoa` injective). -/
def ofDecDigits (l : List Nat) : Nat :=
  l.foldl (fun a d => a * 10 + d) 0

/-- A client with a live websocket and an empty registry (fresh engine right
after a successful handshake). -/
def stEmptyReg : SubscriptionClient :=
  { subWebsocket := some { isOpen := true, sent := [] }, subs := [], chans := [], subIdGen := 0 }

/-- A client with one registered subscriber `"0"` whose channel is open. -/
def stOneSub : SubscriptionClient :=
  { subWebsocket := some { isOpen := true, sent := [] },
    subs := [("0", 0)], chans := [{ items := [], closed := false }], subIdGen := 1 }

/-- A client whose websocket has failed (is closed), with an empty registry:
the state in which the next `Subscribe` write fails. -/
def stClosedWs : SubscriptionClient :=
  { subWebsocket := some { isOpen := false, sent := [] }, subs := [], chans := [], subIdGen := 0 }

/-- A `connection_error` handshake reply carrying a payload. -/
def msgConnError : subscriptionMessage :=
  { payload := some "unauthorized", id := none, type := gql_connection_error }

/-- A trace: subscribe, the far end completes subscriber `"0"` (with the
string the code actually matches), then subscribe again. -/
def opsTrace : List EngineOp :=
  [EngineOp.subscribe "a",
   EngineOp.inbound { payload := none, id := some "0", type := gql_complete },
   EngineOp.subscribe "b"]

/-- A decoded response envelope with two application-level errors. -/
def grTwoErrors : graphResponse :=
  { data := none, errors := [{ message := "first" }, { message := "second" }] }

/-- A request with one attached file. -/
def reqOneFile : Request String :=
  { q := "query", vars := none,
    files := [{ field := "f", partName := "0", name := "a.txt", contentType := "" }],
    header := [] }

/-- A client built without the `UseMultipartForm` option. -/
def clientNoMultipart : Client :=
  { endpoint := "http://example.test/graphql", useMultipartForm := false, closeReq := false }

instance {ε α : Type} [DecidableEq ε] [DecidableEq α] : DecidableEq (Except ε α) :=
  fun a b =>
    match a, b with
    | Except.ok x, Except.ok y => decidable_of_iff (x = y) (by simp)
    | Except.error x, Except.error y => decidable_of_iff (x = y) (by simp)
    | Except.ok _, Except.error _ => isFalse (fun h => Except.noConfusion h)
    | Except.error _, Except.ok _ => isFalse (fun h => Except.noConfusion h)

theorem assocLookup_assocStore_self {β : Type} (m : List (String × β)) (k : String) (v : β) :
    assocLookup (assocStore m k v) k = some v := by
  induction m with
  | nil => simp [assocStore, assocLookup]
  | cons p rest ih =>
    by_cases h : p.1 = k
    · simp [assocStore, assocLookup, h]
    · simp [assocStore, assocLookup, h, ih]

theorem assocLookup_assocStore_ne {β : Type} (m : List (String × β)) (k k2 : String) (v : β)
    (h : k2 ≠ k) : assocLookup (assocStore m k v) k2 = assocLookup m k2 := by
  induction m with
  | nil => simp [assocStore, assocLookup, Ne.symm h]
  | cons p rest ih =>
    by_cases hp : p.1 = k
    · simp [assocStore, assocLookup, hp, Ne.symm h]
    · by_cases hq : p.1 = k2 <;> simp [assocStore, assocLookup, hp, hq, ih, h]

theorem decDigitsAux_lt (fuel : Nat) : ∀ n : Nat, n < fuel → ∀ d ∈ decDigitsAux fuel n, d < 10 := by
  induction fuel with
  | zero => intro n h; omega
  | succ f ih =>
    intro n _ d hd
    rw [decDigitsAux] at hd
    split at hd
    · simp at hd; omega
    · rename_i hn
      rw [List.mem_append] at hd
      rcases hd with hd | hd
      · exact ih (n / 10) (by omega) d hd
      · simp at hd; omega

theorem decDigits_lt (n : Nat) : ∀ d ∈ decDigits n, d < 10 :=
  decDigitsAux_lt (n + 1) n (Nat.lt_succ_self n)

theorem ofDecDigits_append_single (l : List Nat) (d : Nat) :
    ofDecDigits (l ++ [d]) = ofDecDigits l * 10 + d := by
  simp [ofDecDigits, List.foldl_append]

theorem ofDecDigits_decDigitsAux (fuel : Nat) :
    ∀ n : Nat, n < fuel → ofDecDigits (decDigitsAux fuel n) = n := by
  induction fuel with
  | zero => intro n h; omega
  | succ f ih =>
    intro n _
    rw [decDigitsAux]
    split
    · simp [ofDecDigits]
    · rename_i hn
      rw [ofDecDigits_append_single, ih (n / 10) (by omega)]
      omega

theorem ofDecDigits_decDigits (n : Nat) : ofDecDigits (decDigits n) = n :=
  ofDecDigits_decDigitsAux (n + 1) n (Nat.lt_succ_self n)

theorem digitChar_inj_lt : ∀ d < 10, ∀ e < 10, Nat.digitChar d = Nat.digitChar e → d = e := by
  decide

theorem map_digitChar_inj (l1 : List Nat) : ∀ l2 : List Nat, (∀ d ∈ l1, d < 10) →
    (∀ d ∈ l2, d < 10) → l1.map Nat.digitChar = l2.map Nat.digitChar → l1 = l2 := by
  induction l1 with
  | nil => intro l2 _ _ h; cases l2 <;> simp_all
  | cons a l1 ih =>
    intro l2 h1 h2 h
    cases l2 with
    | nil => simp at h
    | cons b l2 =>
      simp only [List.map_cons, List.cons.injEq] at h
      have hab : a = b :=
        digitChar_inj_lt a (h1 a (List.mem_cons_self a l1)) b (h2 b (List.mem_cons_self b l2)) h.1
      subst hab
      have hl : l1 = l2 :=
        ih l2 (fun d hd => h1 d (List.mem_cons_of_mem _ hd))
          (fun d hd => h2 d (List.mem_cons_of_mem _ hd)) h.2
      rw [hl]

theorem itoa_injective : Function.Injective itoa := by
  intro m n h
  have h2 : (decDigits m).map Nat.digitChar = (decDigits n).map Nat.digitChar :=
    congrArg String.data h
  have h3 := map_digitChar_inj (decDigits m) (decDigits n) (decDigits_lt m) (decDigits_lt n) h2
  have hm := ofDecDigits_decDigits m
  have hn := ofDecDigits_decDigits n
  rw [← hm, ← hn, h3]

theorem subWorkHandle_fields (st : SubscriptionClient) (m : subscriptionMessage)
    (st2 : SubscriptionClient) (h : subWorkHandle st m = some st2) :
    st2.subIdGen = st.subIdGen ∧ st2.subWebsocket = st.subWebsocket := by
  rw [subWorkHandle] at h
  cases hc : subWorkHandleCore st.subs st.chans m with
  | none => rw [hc] at h; exact Option.noConfusion h
  | some p =>
    rw [hc] at h
    have h2 : ({ st with subs := p.1, chans := p.2 } : SubscriptionClient) = st2 :=
      Option.some.inj h
    rw [← h2]
    exact ⟨rfl, rfl⟩

theorem stepOp_inbound_fields (st : SubscriptionClient) (m : subscriptionMessage) :
    (stepOp st (EngineOp.inbound m)).subIdGen = st.subIdGen ∧
    (stepOp st (EngineOp.inbound m)).subWebsocket = st.subWebsocket := by
  simp only [stepOp]
  cases h : subWorkHandle st m with
  | none => simp
  | some st2 =>
    simp only [Option.getD_some]
    exact subWorkHandle_fields st m st2 h

theorem stepOp_unsubscribe_fields (st : SubscriptionClient) (r : Nat) :
    (stepOp st (EngineOp.unsubscribe r)).subIdGen = st.subIdGen ∧
    (stepOp st (EngineOp.unsubscribe r)).subWebsocket.isSome = st.subWebsocket.isSome := by
  simp only [stepOp, SubscriptionClient.Unsubscribe]
  cases hf : st.subs.find? (fun p => decide (p.2 = r)) with
  | none => simp [hf]
  | some p =>
    cases hws : st.subWebsocket with
    | none => simp [hf, hws]
    | some ws =>
      cases hw : wsWriteJSON ws { payload := none, id := some p.1, type := gql_stop } with
      | error e => simp [hf, hws, hw]
      | ok ws2 => simp [hf, hws, hw]

theorem stepOp_subscribe_fields (st : SubscriptionClient) (ws : WsConn) (q : String)
    (h : st.subWebsocket = some ws) :
    (stepOp st (EngineOp.subscribe q)).subIdGen = (st.subIdGen + 1) % 2 ^ 64 ∧
    (stepOp st (EngineOp.subscribe q)).subWebsocket.isSome = true := by
  simp only [stepOp, SubscriptionClient.Subscribe, h]
  cases hw : wsWriteJSON ws { payload := some (encodeRequestBody q []), id := some (goItoa st.subIdGen), type := gql_start } with
  | error e => simp [hw]
  | ok ws2 => simp [hw]

theorem decDigits_ne_nil (n : Nat) : decDigits n ≠ [] := by
  rw [decDigits, decDigitsAux]
  split <;> simp

theorem digitChar_ne_minus : ∀ d < 10, Nat.digitChar d ≠ '-' := by
  decide

theorem itoa_ne_minus (v m : Nat) :
    itoa v ≠ String.mk ('-' :: (decDigits m).map Nat.digitChar) := by
  intro h
  have hd : (decDigits v).map Nat.digitChar =
      '-' :: (decDigits m).map Nat.digitChar :=
    congrArg String.data h
  cases he : decDigits v with
  | nil => exact decDigits_ne_nil v he
  | cons d ds =>
    rw [he] at hd
    simp only [List.map_cons, List.cons.injEq] at hd
    have hd10 : d < 10 := decDigits_lt v d (by rw [he]; exact List.mem_cons_self d ds)
    exact digitChar_ne_minus d hd10 hd.1

theorem goItoa_eq_pos (v : Nat) (h : v < 2 ^ 63) : goItoa v = itoa v := by
  rw [goItoa, int64OfBits, if_pos h, itoaInt, if_neg (by omega)]
  congr 1

theorem goItoa_eq_neg (v : Nat) (h1 : 2 ^ 63 ≤ v) (h2 : v < 2 ^ 64) :
    goItoa v = String.mk ('-' :: (decDigits (2 ^ 64 - v)).map Nat.digitChar) := by
  rw [goItoa, int64OfBits, if_neg (by omega), itoaInt, if_pos (by omega)]
  have hab : ((v : Int) - 2 ^ 64).natAbs = 2 ^ 64 - v := by omega
  rw [hab]

theorem goItoa_inj_lt : ∀ v < 2 ^ 64, ∀ w < 2 ^ 64, goItoa v = goItoa w → v = w := by
  intro v hv w hw h
  by_cases hv63 : v < 2 ^ 63 <;> by_cases hw63 : w < 2 ^ 63
  · rw [goItoa_eq_pos v hv63, goItoa_eq_pos w hw63] at h
    exact itoa_injective h
  · rw [goItoa_eq_pos v hv63, goItoa_eq_neg w (by omega) hw] at h
    exact absurd h (itoa_ne_minus v (2 ^ 64 - w))
  · rw [goItoa_eq_neg v (by omega) hv, goItoa_eq_pos w hw63] at h
    exact absurd h.symm (itoa_ne_minus w (2 ^ 64 - v))
  · rw [goItoa_eq_neg v (by omega) hv, goItoa_eq_neg w (by omega) hw] at h
    have hd : '-' :: (decDigits (2 ^ 64 - v)).map Nat.digitChar =
        '-' :: (decDigits (2 ^ 64 - w)).map Nat.digitChar :=
      congrArg String.data h
    simp only [List.cons.injEq, true_and] at hd
    have h2 := map_digitChar_inj (decDigits (2 ^ 64 - v)) (decDigits (2 ^ 64 - w))
      (decDigits_lt _) (decDigits_lt _) hd
    have h3 : 2 ^ 64 - v = 2 ^ 64 - w := by
      have a := ofDecDigits_decDigits (2 ^ 64 - v)
      have b := ofDecDigits_decDigits (2 ^ 64 - w)
      rw [← a, ← b, h2]
    omega

theorem map_mod_range' (a k : Nat) :
    (List.range' (a % 2 ^ 64) k).map (fun n => goItoa (n % 2 ^ 64)) =
    (List.range' a k).map (fun n => goItoa (n % 2 ^ 64)) := by
  apply List.ext_getElem
  · simp
  · intro i h1 h2
    simp only [List.getElem_map, List.getElem_range'_1]
    congr 1
    omega

theorem numSubscribes_replicate (n : Nat) (q : String) :
    numSubscribes (List.replicate n (EngineOp.subscribe q)) = n := by
  induction n with
  | zero => rfl
  | succ k ih => simp [List.replicate_succ, numSubscribes, ih]

theorem assignedIds_eq_range (ops : List EngineOp) : ∀ st : SubscriptionClient,
    st.subWebsocket.isSome = true → st.subIdGen < 2 ^ 64 →
    assignedIds st ops =
      (List.range' st.subIdGen (numSubscribes ops)).map (fun n => goItoa (n % 2 ^ 64)) := by
  induction ops with
  | nil => intro st _ _; simp [assignedIds, numSubscribes]
  | cons op ops ih =>
    intro st h hg
    cases op with
    | subscribe q =>
      rcases Option.isSome_iff_exists.mp h with ⟨ws, hws⟩
      have hf := stepOp_subscribe_fields st ws q hws
      have hglt : (stepOp st (EngineOp.subscribe q)).subIdGen < 2 ^ 64 := by
        rw [hf.1]; exact Nat.mod_lt _ (by norm_num)
      simp only [assignedIds, hws, numSubscribes]
      rw [ih (stepOp st (EngineOp.subscribe q)) hf.2 hglt, hf.1, map_mod_range',
        List.range'_succ]
      simp only [List.map_cons, List.singleton_append]
      congr 1
      rw [Nat.mod_eq_of_lt hg]
    | inbound m =>
      have hf := stepOp_inbound_fields st m
      simp only [assignedIds, numSubscribes]
      rw [ih (stepOp st (EngineOp.inbound m)) (by rw [hf.2]; exact h)
        (by rw [hf.1]; exact hg), hf.1]
    | unsubscribe r =>
      have hf := stepOp_unsubscribe_fields st r
      simp only [assignedIds, numSubscribes]
      rw [ih (stepOp st (EngineOp.unsubscribe r)) (by rw [hf.2]; exact h)
        (by rw [hf.1]; exact hg), hf.1]

/-- Claim C1: the spec says a `data`/`error`/`complete` frame whose subscriber
identifier is not in the registry is dropped without error and the dispatch
loop continues.  The code does the opposite: `subWork` ignores the `ok` result
of `subs.Load` and performs the type assertion `ch.(Subscription)` on a nil
interface, a runtime panic that kills the dispatch loop.  This theorem
evaluates the code at such frames: whenever the frame's id is absent from the
registry and its type is one of the three switch cases, the dispatch step
panics (`none`). -/
theorem subWork_unknown_subscriber_panics (st : SubscriptionClient)
    (m : subscriptionMessage) (i : String) (hid : m.id = some i)
    (habs : assocLookup st.subs i = none)
    (hk : m.type = gql_error ∨ m.type = gql_data ∨ m.type = gql_complete) :
    subWorkHandle st m = none := by
  rw [subWorkHandle, subWorkHandleCore]
  rcases hk with hk | hk | hk <;>
    simp [hk, hid, habs, gql_error, gql_data, gql_complete]

/-- Witness for C1: a `data` frame with id `"7"` against an empty registry
makes the dispatch step panic. -/
theorem subWork_unknown_subscriber_panics_witness :
    subWorkHandle stEmptyReg { payload := none, id := some "7", type := gql_data } = none :=
  subWork_unknown_subscriber_panics stEmptyReg
    { payload := none, id := some "7", type := gql_data } "7" rfl rfl
    (Or.inr (Or.inl rfl))

/-- Claim C2: the spec requires a non-end-of-stream read error to be reported
through a recoverable channel and all subscriber sinks to still be closed.
The code instead calls `log.Fatalf`, which terminates the whole process;
deferred functions do not run, so no sink is closed and nothing is reported.
Evaluated at a concrete transport error ("connection reset by peer"), the
loop's exit behavior is `processFatal`, which closes no sinks; by contrast a
clean EOF takes the orderly `returnCloseAll` path. -/
theorem subWork_transport_error_kills_process :
    subWorkOnReadError (ReadError.other "read tcp 127.0.0.1:52344: connection reset by peer") =
      ExitBehavior.processFatal ∧
    exitClosesAllSinks ExitBehavior.processFatal = false ∧
    subWorkOnReadError ReadError.eof = ExitBehavior.returnCloseAll := by
  refine ⟨?_, rfl, by decide⟩
  decide

/-- Claim C3: the spec says a frame whose wire `type` field is `"complete"`
closes the subscriber's sink and removes it from the registry.  The code
compares `msg.Type` against the constant `gql_complete = "GQL_COMPLETE"`,
which differs from the wire type `"complete"`, so a wire `complete` frame
falls through the switch and is ignored: the subscriber's channel is neither
closed nor removed.  Only the non-protocol string `"GQL_COMPLETE"` triggers
the close-and-remove branch. -/
theorem subWork_wire_complete_ignored :
    gql_complete ≠ "complete" ∧
    subWorkHandle stOneSub { payload := none, id := some "0", type := "complete" } =
      some stOneSub ∧
    (subWorkHandle stOneSub { payload := none, id := some "0", type := gql_complete }).map
        (fun s => (assocLookup s.subs "0", s.chans)) =
      some (none, [{ items := [], closed := true }]) := by
  refine ⟨by decide, rfl, rfl⟩

/-- Counterexample for C4: on a fresh engine, the first `Close` succeeds, but
a second `Close` does not return success — `subWebsocket` is never cleared,
so the terminate-frame write is re-attempted on the closed connection and its
error is returned. -/
theorem close_second_call_cex :
    (SubscriptionClient.Close stEmptyReg).1 = Except.ok () ∧
    (SubscriptionClient.Close (SubscriptionClient.Close stEmptyReg).2).1 =
      Except.error "use of closed network connection" :=
  ⟨rfl, rfl⟩

/-- Claim C4, amended: after a successful `Close` of an engine with an open
websocket, a second `Close` is not an idempotent success: the websocket field
still holds the (now closed) connection, so `Close` re-attempts the
`connection_terminate` write and returns the write error. -/
theorem close_second_call_not_success (st : SubscriptionClient) (ws : WsConn)
    (h : st.subWebsocket = some ws) (ho : ws.isOpen = true) :
    (SubscriptionClient.Close st).1 = Except.ok () ∧
    (SubscriptionClient.Close (SubscriptionClient.Close st).2).1 =
      Except.error "use of closed network connection" := by
  simp [SubscriptionClient.Close, h, wsWriteJSON, wsClose, ho]

/-- Witness for C4's amended theorem at a concrete engine state. -/
theorem close_second_call_not_success_witness :
    (SubscriptionClient.Close stOneSub).1 = Except.ok () ∧
    (SubscriptionClient.Close (SubscriptionClient.Close stOneSub).2).1 =
      Except.error "use of closed network connection" :=
  close_second_call_not_success stOneSub { isOpen := true, sent := [] } rfl rfl

/-- Counterexample for C5: on an engine whose websocket has failed, the
registry starts empty, `Subscribe` returns a write error — and the registry
afterwards still contains the entry stored under the fresh identifier `"0"`:
it is not rolled back. -/
theorem subscribe_write_fail_no_rollback_cex :
    stClosedWs.subs = [] ∧
    (SubscriptionClient.Subscribe stClosedWs "q" []).map (fun p => (p.1, p.2.subs)) =
      some (Except.error "use of closed network connection", [("0", 0)]) :=
  ⟨rfl, rfl⟩

/-- Claim C5, amended: when the transport write of the `start` frame fails,
`Subscribe` returns an error, but the registry entry stored under the freshly
assigned identifier is NOT rolled back — it remains in the registry, and the
identifier counter stays advanced. -/
theorem subscribe_write_fail_entry_remains (st : SubscriptionClient) (ws : WsConn)
    (h : st.subWebsocket = some ws) (hc : ws.isOpen = false) (q : String)
    (vars : List (String × String)) :
    ∃ st2, SubscriptionClient.Subscribe st q vars =
        some (Except.error "use of closed network connection", st2) ∧
      assocLookup st2.subs (goItoa st.subIdGen) = some st.chans.length ∧
      st2.subIdGen = (st.subIdGen + 1) % 2 ^ 64 := by
  refine ⟨{ st with subIdGen := (st.subIdGen + 1) % 2 ^ 64, chans := st.chans ++ [{ items := [], closed := false }], subs := assocStore st.subs (goItoa st.subIdGen) st.chans.length }, ?_, ?_, rfl⟩
  · simp [SubscriptionClient.Subscribe, h, wsWriteJSON, hc]
  · exact assocLookup_assocStore_self _ _ _

/-- Witness for C5's amended theorem at a concrete engine state. -/
theorem subscribe_write_fail_entry_remains_witness :
    ∃ st2, SubscriptionClient.Subscribe stClosedWs "q" [] =
        some (Except.error "use of closed network connection", st2) ∧
      assocLookup st2.subs (goItoa stClosedWs.subIdGen) = some stClosedWs.chans.length ∧
      st2.subIdGen = (stClosedWs.subIdGen + 1) % 2 ^ 64 :=
  subscribe_write_fail_entry_remains stClosedWs { isOpen := false, sent := [] } rfl rfl "q" []

/-- Counterexample for C6: a handshake whose read of the reply frame fails is
a failed handshake (an error is returned), yet the code returns without
calling `conn.Close()` — the transport is left open, contradicting the claim
that it is closed before returning on every failed handshake. -/
theorem handshake_read_fail_leaves_open_cex :
    (SubscriptionClientHandshake (Except.ok ()) (Except.ok ())
        (Except.error "websocket: read failed")).result =
      Except.error "websocket: read failed" ∧
    (SubscriptionClientHandshake (Except.ok ()) (Except.ok ())
        (Except.error "websocket: read failed")).connClosed = false :=
  ⟨rfl, rfl⟩

/-- Claim C6, amended: on a reply frame of kind `connection_error` (with a
payload) or of any other non-acknowledgement kind, `SubscriptionClient`
returns an error after closing the transport; but when the handshake write or
read itself fails, the error is returned WITHOUT closing the transport. -/
theorem handshake_close_only_on_reply (msg : subscriptionMessage) (e : String)
    (hna : msg.type ≠ gql_connection_ack) (hp : msg.payload.isSome = true) :
    ((SubscriptionClientHandshake (Except.ok ()) (Except.ok ()) (Except.ok msg)).result ≠
        Except.ok () ∧
      (SubscriptionClientHandshake (Except.ok ()) (Except.ok ()) (Except.ok msg)).connClosed =
        true) ∧
    ((SubscriptionClientHandshake (Except.ok ()) (Except.ok ()) (Except.error e)).result =
        Except.error e ∧
      (SubscriptionClientHandshake (Except.ok ()) (Except.ok ()) (Except.error e)).connClosed =
        false) ∧
    ((SubscriptionClientHandshake (Except.ok ()) (Except.error e) (Except.ok msg)).result =
        Except.error e ∧
      (SubscriptionClientHandshake (Except.ok ()) (Except.error e) (Except.ok msg)).connClosed =
        false) := by
  refine ⟨?_, ⟨rfl, rfl⟩, ⟨rfl, rfl⟩⟩
  simp only [SubscriptionClientHandshake]
  rw [if_neg hna]
  by_cases hce : msg.type = gql_connection_error
  · rw [if_pos hce]
    cases ho : msg.payload with
    | none => rw [ho] at hp; exact absurd hp (by simp)
    | some p => exact ⟨fun hcon => Except.noConfusion hcon, rfl⟩
  · rw [if_neg hce]
    exact ⟨fun hcon => Except.noConfusion hcon, rfl⟩

/-- Witness for C6's amended theorem: a `connection_error` reply closes the
transport; a failed read leaves it open. -/
theorem handshake_close_only_on_reply_witness :
    (SubscriptionClientHandshake (Except.ok ()) (Except.ok ())
        (Except.ok msgConnError)).connClosed = true ∧
    (SubscriptionClientHandshake (Except.ok ()) (Except.ok ())
        (Except.error "boom")).connClosed = false :=
  ⟨((handshake_close_only_on_reply msgConnError "boom" (by decide) rfl).1).2,
   ((handshake_close_only_on_reply msgConnError "boom" (by decide) rfl).2.1).2⟩

/-- Counterexample for C7: the counter `subIdGen` is a wrapping 64-bit Go
`int`, so identifiers ARE eventually reused on one engine: over the trace of
`2 ^ 64 + 1` Subscribe calls from a fresh engine, the identifier assigned by
the first call (`strconv.Itoa(0)`) is assigned again by the last call after
the counter wraps, so the assigned identifiers are not pairwise distinct —
the claim that an identifier is never reused for the engine's lifetime is
false. -/
theorem subscribe_ids_wrap_cex :
    ¬ (assignedIds stEmptyReg
        (List.replicate (2 ^ 64 + 1) (EngineOp.subscribe "q"))).Nodup := by
  intro hnd
  rw [assignedIds_eq_range _ stEmptyReg rfl (by decide),
    numSubscribes_replicate (2 ^ 64 + 1) "q"] at hnd
  have h0 : stEmptyReg.subIdGen = 0 := rfl
  rw [h0, List.range'_succ, List.map_cons, List.nodup_cons] at hnd
  apply hnd.1
  have h64 : (2 : Nat) ^ 64 = (2 ^ 64 - 1) + 1 := by omega
  rw [h64, List.range'_1_concat, List.map_append, List.mem_append]
  right
  rw [List.map_singleton, List.mem_singleton]
  congr 1

/-- Claim C7, amended: each `Subscribe` call draws its identifier from the
64-bit counter `subIdGen` (`strconv.Itoa` of the counter, which then
increments, wrapping modulo `2 ^ 64`), so over any trace of engine operations
from a state with a live websocket, the assigned identifiers are renderings
of consecutive counter residues — and as long as the trace performs at most
`2 ^ 64` Subscribe calls (the counter does not complete a wrap cycle) they
are pairwise distinct, not reused even after `complete` frames remove
subscribers from the registry or `unsubscribe` stops them. -/
theorem subscribe_ids_distinct (st : SubscriptionClient) (ops : List EngineOp)
    (h : st.subWebsocket.isSome = true) (hg : st.subIdGen < 2 ^ 64)
    (hk : numSubscribes ops ≤ 2 ^ 64) :
    assignedIds st ops =
      (List.range' st.subIdGen (numSubscribes ops)).map (fun n => goItoa (n % 2 ^ 64)) ∧
    (assignedIds st ops).Nodup := by
  have he := assignedIds_eq_range ops st h hg
  refine ⟨he, ?_⟩
  rw [he]
  refine List.Nodup.map_on ?_ (List.nodup_range' _ _)
  intro x hx y hy hxy
  have hx2 := List.mem_range'_1.mp hx
  have hy2 := List.mem_range'_1.mp hy
  have hmod : x % 2 ^ 64 = y % 2 ^ 64 :=
    goItoa_inj_lt (x % 2 ^ 64) (Nat.mod_lt _ (by norm_num)) (y % 2 ^ 64)
      (Nat.mod_lt _ (by norm_num)) hxy
  omega

/-- Witness for C7's amended theorem on a concrete trace: subscribe, a
completion framed with the code's own constant removes subscriber `"0"`,
subscribe again — the assigned ids are `"0"` then `"1"`, distinct. -/
theorem subscribe_ids_distinct_witness :
    assignedIds stEmptyReg opsTrace =
      (List.range' stEmptyReg.subIdGen (numSubscribes opsTrace)).map
        (fun n => goItoa (n % 2 ^ 64)) ∧
    (assignedIds stEmptyReg opsTrace).Nodup :=
  subscribe_ids_distinct stEmptyReg opsTrace rfl (by decide) (by decide)

/-- Claim C8: on the stateless path, when the decoded response envelope has a
non-empty errors list, both `runWithJSON` and `runWithPostFields` return
exactly the first error of the list; when the list is empty they succeed. -/
theorem run_first_error_returned :
    (∀ (gr : graphResponse) (e : graphErr) (rest : List graphErr),
        gr.errors = e :: rest →
          runWithJSONFinish gr = Except.error e ∧
          runWithPostFieldsFinish gr = Except.error e) ∧
    (∀ gr : graphResponse, gr.errors = [] →
        runWithJSONFinish gr = Except.ok () ∧ runWithPostFieldsFinish gr = Except.ok ()) := by
  constructor
  · intro gr e rest h
    cases gr with
    | mk d errs =>
      subst h
      exact ⟨rfl, rfl⟩
  · intro gr h
    cases gr with
    | mk d errs =>
      subst h
      exact ⟨rfl, rfl⟩

/-- Witness for C8 at a concrete two-error envelope: the first error is the
one returned. -/
theorem run_first_error_returned_witness :
    runWithJSONFinish grTwoErrors = Except.error { message := "first" } ∧
    runWithPostFieldsFinish grTwoErrors = Except.error { message := "first" } :=
  run_first_error_returned.1 grTwoErrors { message := "first" } [{ message := "second" }] rfl

/-- Claim C9: a request with at least one attached file, run on a client not
configured with `UseMultipartForm` (and with a live context), returns the
error "cannot send files with PostFields option" from the guard at the top of
`Run`, before any HTTP request is built or sent. -/
theorem run_files_without_multipart {α : Type} (c : Client) (req : Request α)
    (ctxDone : Bool) (hctx : ctxDone = false) (hf : req.files ≠ [])
    (hm : c.useMultipartForm = false) :
    Client.Run c ctxDone req =
      RunDispatch.filesWithoutMultipart "cannot send files with PostFields option" ∧
    (Client.Run c ctxDone req).sendsHTTPRequest = false := by
  have hlen : req.files.length > 0 := List.length_pos.mpr hf
  have h1 : Client.Run c ctxDone req =
      RunDispatch.filesWithoutMultipart "cannot send files with PostFields option" := by
    subst hctx
    simp only [Client.Run]
    rw [if_neg (by simp), if_pos ⟨hlen, hm⟩]
  exact ⟨h1, by rw [h1]; rfl⟩

/-- Witness for C9 at a concrete client and one-file request. -/
theorem run_files_without_multipart_witness :
    Client.Run clientNoMultipart false reqOneFile =
      RunDispatch.filesWithoutMultipart "cannot send files with PostFields option" ∧
    (Client.Run clientNoMultipart false reqOneFile).sendsHTTPRequest = false :=
  run_files_without_multipart clientNoMultipart reqOneFile false rfl (by decide) rfl

/-- Claim C10: `Var` followed by `Vars` yields a mapping binding the key to
the value; `Var` on a request whose variables map is still nil allocates the
map instead of failing; and bindings of all other keys are unchanged. -/
theorem var_sets_binding {α : Type} (req : Request α) (k : String) (v : α) :
    ((req.Var k v).Vars).isSome = true ∧
    assocLookup (((req.Var k v).Vars).getD []) k = some v ∧
    ∀ k2 : String, k2 ≠ k →
      assocLookup (((req.Var k v).Vars).getD []) k2 =
        assocLookup ((req.Vars).getD []) k2 := by
  cases req with
  | mk q vars files header =>
    cases vars with
    | none =>
      refine ⟨rfl, ?_, ?_⟩
      · exact assocLookup_assocStore_self [] k v
      · intro k2 hk2
        exact assocLookup_assocStore_ne [] k k2 v hk2
    | some m =>
      refine ⟨rfl, ?_, ?_⟩
      · exact assocLookup_assocStore_self m k v
      · intro k2 hk2
        exact assocLookup_assocStore_ne m k k2 v hk2

/-- Witness for C10: setting a variable on a fresh request (nil map) and on a
request that already binds another key. -/
theorem var_sets_binding_witness :
    (((NewRequest "q" : Request String).Var "key" "value").Vars).isSome = true ∧
    assocLookup ((((NewRequest "q" : Request String).Var "key" "value").Vars).getD []) "key" =
      some "value" ∧
    assocLookup ((((NewRequest "q" : Request String).Var "key" "value").Vars).getD []) "other" =
      assocLookup (((NewRequest "q" : Request String).Vars).getD []) "other" :=
  ⟨(var_sets_binding (NewRequest "q" : Request String) "key" "value").1,
   (var_sets_binding (NewRequest "q" : Request String) "key" "value").2.1,
   (var_sets_binding (NewRequest "q" : Request String) "key" "value").2.2 "other" (by decide)⟩
